import Mathlib

/-
Verification of the LLM provider abstraction layer of the cookbook chatbot
repository: the backoff executor, the Gemini/Ollama provider adapters
(message normalization, chat error degradation, embedding retry), and the
provider registry.  Each definition is a shallow embedding of the
corresponding TypeScript function; external effects (the backend HTTP call,
`Math.random` jitter) are abstracted as explicit oracle parameters.
Delays and timeouts are modelled in integer milliseconds.
-/

/-! ## Data model -/

/-- Chat message roles of the provider-agnostic message list. -/
inductive Role where
  | system
  | user
  | assistant
deriving DecidableEq, Repr

/-- A provider-agnostic chat message. -/
structure Message where
  role : Role
  content : String
deriving DecidableEq, Repr

/-- The uniform chat result shape `{role, content}` returned by
`answerQuestionAwaited`. -/
structure ChatResult where
  role : String
  content : String
deriving DecidableEq, Repr

/-- The uniform embedding result shape `{embedding}`. -/
structure EmbedResult where
  embedding : List ℚ
deriving DecidableEq

/-- A JavaScript error value as inspected by the catch blocks:
only its optional `code` and `message` fields are ever read. -/
structure JsError where
  code : Option String := none
  message : Option String := none
deriving DecidableEq, Repr

/-- The `LlmProviderConfig` object: every field optional
(`undefined` is `none`). -/
structure LlmProviderConfig where
  apiKey : Option String := none
  baseUrl : Option String := none
  model : Option String := none
  embeddingModel : Option String := none
  timeout : Option Nat := none
  numOfAttempts : Option Nat := none
  maxDelay : Option Nat := none
  startingDelay : Option Nat := none
deriving DecidableEq, Repr

/-! ## JavaScript primitives used by the source -/

/-- JavaScript `v || d` for an optional number field: `undefined` and `0`
are falsy and select the default. -/
def jsOrNum (v : Option Nat) (d : Nat) : Nat :=
  match v with
  | none => d
  | some 0 => d
  | some n => n

/-- JavaScript `v || d` for an optional string field: `undefined` and `""`
are falsy and select the default. -/
def jsOrStr (v : Option String) (d : String) : String :=
  match v with
  | none => d
  | some s => if s = "" then d else s

/-- JavaScript `String.prototype.includes`. -/
def jsIncludes (s sub : String) : Bool :=
  decide (sub.data <:+: s.data)

/-- JavaScript `String.prototype.toLowerCase` (ASCII case folding). -/
def jsToLowerCase (s : String) : String :=
  String.mk (s.data.map Char.toLower)

/-! ## Backoff Executor (`withBackoff` in ollamaEmbedder.ts and in
`OllamaProvider.createEmbedder`) -/

/-- Outcome of a `withBackoff` run: a returned value, a rethrown last
error, or the trailing `throw new Error("Should not reach here")`. -/
inductive BackoffOutcome (ε α : Type) where
  | success : α → BackoffOutcome ε α
  | failure : ε → BackoffOutcome ε α
  | shouldNotReachHere : BackoffOutcome ε α
deriving DecidableEq

/-- Observable trace of a `withBackoff` run: the outcome, how many times
`fn` was invoked, and the base (pre-jitter) delays waited between
attempts, in order.  The jitter `Math.random() * 0.1 * delay` added on
top of each base delay is not modelled. -/
structure BackoffTrace (ε α : Type) where
  outcome : BackoffOutcome ε α
  calls : Nat
  baseDelays : List Nat
deriving DecidableEq

/-- The body of the `while (attempt < numOfAttempts)` loop of
`withBackoff`.  `remaining` is `numOfAttempts - attempt`, the number of
iterations the guard still allows; `attempt` and `delay` are the mutable
loop variables.  The k-th invocation of the operation is `fn k`
(`.ok` a resolved promise, `.error` a rejection).  When the guard fails
(`remaining = 0`) the trailing `throw new Error("Should not reach here")`
runs.  Inside the loop, on error: `attempt++`; if `attempt >= numOfAttempts`
(i.e. `remaining = 1`) the error is rethrown; otherwise
`delay = Math.min(delay * 2, maxDelay)` is computed and waited, and the
loop continues. -/
def withBackoffGo (fn : Nat → Except ε α) (maxDelay : Nat) :
    Nat → Nat → Nat → BackoffTrace ε α
  | 0, _, _ => ⟨.shouldNotReachHere, 0, []⟩
  | remaining + 1, attempt, delay =>
    match fn attempt with
    | .ok a => ⟨.success a, 1, []⟩
    | .error e =>
      match remaining with
      | 0 => ⟨.failure e, 1, []⟩
      | r + 1 =>
        let d := min (delay * 2) maxDelay
        let t := withBackoffGo fn maxDelay (r + 1) (attempt + 1) d
        ⟨t.outcome, t.calls + 1, d :: t.baseDelays⟩

/-- `withBackoff(fn)` with the captured `numOfAttempts`, `startingDelay`
and `maxDelay`: the loop starts at `attempt = 0`, `delay = startingDelay`. -/
def withBackoff (numOfAttempts startingDelay maxDelay : Nat)
    (fn : Nat → Except ε α) : BackoffTrace ε α :=
  withBackoffGo fn maxDelay numOfAttempts 0 startingDelay

/-- An operation that fails on every invocation, the k-th time with
error `es k`. -/
def alwaysFail (es : Nat → ε) : Nat → Except ε α :=
  fun k => Except.error (es k)

/-! ## Ollama embedder (`OllamaProvider.createEmbedder` /
`makeOllamaEmbedder`) -/

/-- The backoff settings captured by `createEmbedder` after applying the
`||`-defaults. -/
structure OllamaBackoffSettings where
  numOfAttempts : Nat
  maxDelay : Nat
  startingDelay : Nat
deriving DecidableEq, Repr

/-- `numOfAttempts = config.numOfAttempts || 3`,
`maxDelay = config.maxDelay || 5000`,
`startingDelay = config.startingDelay || 1000`. -/
def resolveOllamaBackoff (config : LlmProviderConfig) : OllamaBackoffSettings :=
  ⟨jsOrNum config.numOfAttempts 3,
   jsOrNum config.maxDelay 5000,
   jsOrNum config.startingDelay 1000⟩

/-- `embedText`: the Ollama embeddings POST wrapped in `withBackoff`.
The backend response to the k-th attempt is the oracle value `backend k`:
`.ok v` when the response carries an embedding `v`, `.error e` when axios
throws or the missing-embedding check throws. -/
def ollamaEmbedText (s : OllamaBackoffSettings)
    (backend : Nat → Except JsError (List ℚ)) : BackoffTrace JsError (List ℚ) :=
  withBackoff s.numOfAttempts s.startingDelay s.maxDelay backend

/-- `embed({text})`: wraps the `embedText` result as `{embedding}`;
failures propagate. -/
def ollamaEmbed (s : OllamaBackoffSettings)
    (backend : Nat → Except JsError (List ℚ)) : BackoffOutcome JsError EmbedResult :=
  match (ollamaEmbedText s backend).outcome with
  | .success v => .success ⟨v⟩
  | .failure e => .failure e
  | .shouldNotReachHere => .shouldNotReachHere

/-! ## Gemini message normalization
(`GeminiProvider.createChatLlm.answerQuestionAwaited`, conversion block) -/

/-- A message in Gemini wire shape; `text` is `parts[0].text`. -/
structure GeminiMessage where
  role : String
  text : String
deriving DecidableEq, Repr

/-- `{role: msg.role === "assistant" ? "model" : msg.role,
parts: [{text: msg.content}]}`. -/
def toGeminiMessage (m : Message) : GeminiMessage :=
  ⟨(match m.role with
    | .assistant => "model"
    | .system => "system"
    | .user => "user"), m.content⟩

/-- JavaScript `Array.prototype.findIndex`, with `-1` modelled as `none`. -/
def findIndex (p : α → Bool) : List α → Option Nat
  | [] => none
  | a :: l => if p a then some 0 else (findIndex p l).map (· + 1)

/-- In-place update of the element at index `i`
(the mutation `arr[i].parts[0].text = ...`). -/
def modifyIdx (f : α → α) : Nat → List α → List α
  | _, [] => []
  | 0, a :: l => f a :: l
  | i + 1, a :: l => a :: modifyIdx f i l

/-- The merged first-user-message text:
`` `[System Instructions: ${systemContent}]\n\n${userContent}` ``. -/
def wrapSystemText (systemContent userText : String) : String :=
  "[System Instructions: " ++ systemContent ++ "]\n\n" ++ userText

/-- The message-conversion block of Gemini `answerQuestionAwaited`:
map to Gemini roles, split system from non-system messages, and if both
groups are non-empty, splice the joined system content into the first
user message (if any) of the non-system list. -/
def geminiNormalizeMessages (messages : List Message) : List GeminiMessage :=
  let geminiMessages := messages.map toGeminiMessage
  let systemMessages := geminiMessages.filter (fun m => m.role == "system")
  let nonSystemMessages := geminiMessages.filter (fun m => !(m.role == "system"))
  if 0 < systemMessages.length ∧ 0 < nonSystemMessages.length then
    match findIndex (fun m => m.role == "user") nonSystemMessages with
    | some i =>
      let systemContent := String.intercalate "\n\n"
        (systemMessages.map (fun m => m.text))
      modifyIdx (fun m => ⟨m.role, wrapSystemText systemContent m.text⟩)
        i nonSystemMessages
    | none => nonSystemMessages
  else nonSystemMessages

/-- Modelled from the spec (§4.3), for comparison with
`geminiNormalizeMessages`: collect all system messages in original order,
join their content with a blank-line separator, and prepend the joined
text — wrapped as `[System Instructions: <text>]` followed by a blank
line — to the content of the first user message in the remaining
sequence; if no user message exists the system content is dropped. -/
def geminiNormalizeSpec (messages : List Message) : List GeminiMessage :=
  let sys := (messages.filter (fun m => m.role == Role.system)).map
    (fun m => m.content)
  let rest := messages.filter (fun m => !(m.role == Role.system))
  let restGemini := rest.map toGeminiMessage
  match sys with
  | [] => restGemini
  | _ :: _ =>
    match findIndex (fun m => m.role == Role.user) rest with
    | none => restGemini
    | some i =>
      modifyIdx
        (fun m => ⟨m.role, wrapSystemText (String.intercalate "\n\n" sys) m.text⟩)
        i restGemini

/-! ## Chat adapters: error degradation
(Gemini `answerQuestionAwaited` catch block; Ollama
`answerQuestionAwaited` catch block in `OllamaProvider.createChatLlm`
and `makeOllamaLlm`) -/

/-- The apology returned when the failure is classified as a timeout. -/
def timeoutApology : String :=
  "I apologize, but I\x27m having trouble processing your request at the moment. The response is taking longer than expected. Please try a simpler query or try again later."

/-- The apology returned for every other failure. -/
def technicalDifficultiesApology : String :=
  "I apologize, but I\x27m experiencing technical difficulties at the moment. Please try again later."

/-- Gemini timeout classification:
`error.message && error.message.includes('timed out')`. -/
def geminiIsTimeoutError (e : JsError) : Bool :=
  match e.message with
  | some m => jsIncludes m "timed out"
  | none => false

/-- Ollama timeout classification: `error.code === 'ECONNABORTED' ||
(error.message && error.message.includes('timeout'))`. -/
def ollamaIsTimeoutError (e : JsError) : Bool :=
  (e.code == some "ECONNABORTED") ||
    (match e.message with
     | some m => jsIncludes m "timeout"
     | none => false)

/-- Gemini `answerQuestionAwaited`: the request is the normalized message
list; `backend` is the oracle for the raced
`generateContent`/timeout promise (`.ok` the response text, `.error` the
caught rejection).  The catch block maps failures to apologies. -/
def geminiAnswerQuestionAwaited (messages : List Message)
    (backend : List GeminiMessage → Except JsError String) : ChatResult :=
  match backend (geminiNormalizeMessages messages) with
  | .ok text => ⟨"assistant", text⟩
  | .error e =>
    if geminiIsTimeoutError e then ⟨"assistant", timeoutApology⟩
    else ⟨"assistant", technicalDifficultiesApology⟩

/-- The prompt built by the Ollama chat adapters from the message list. -/
def ollamaBuildPrompt (messages : List Message) : String :=
  (messages.foldl
    (fun acc m =>
      acc ++ (match m.role with
        | .system => "System: " ++ m.content ++ "\n\n"
        | .user => "User: " ++ m.content ++ "\n\n"
        | .assistant => "Assistant: " ++ m.content ++ "\n\n")) "")
    ++ "Assistant: "

/-- Ollama `answerQuestionAwaited` (identical error handling in
`OllamaProvider.createChatLlm` and `makeOllamaLlm`): `backend` is the
oracle for the axios POST on the built prompt (`.ok` the
`response.data.response` text, `.error` the caught axios error). -/
def ollamaAnswerQuestionAwaited (messages : List Message)
    (backend : String → Except JsError String) : ChatResult :=
  match backend (ollamaBuildPrompt messages) with
  | .ok text => ⟨"assistant", text⟩
  | .error e =>
    if ollamaIsTimeoutError e then ⟨"assistant", timeoutApology⟩
    else ⟨"assistant", technicalDifficultiesApology⟩

/-! ## Gemini adapter construction and embedder -/

/-- `GeminiProvider.requiresApiKey()`. -/
def geminiRequiresApiKey : Bool := true

/-- The settings captured by `GeminiProvider.createChatLlm` when
construction succeeds. -/
structure GeminiChatSettings where
  apiKey : String
  model : String
  timeout : Nat
deriving DecidableEq, Repr

/-- `GeminiProvider.createChatLlm`: `if (!config.apiKey) throw`, then
capture `model = config.model || "gemini-2.0-flash-thinking-exp-01-21"`
and `timeout = config.timeout || 60000`.  No network call is made:
the result is either the construction error or the captured settings. -/
def geminiCreateChatLlm (config : LlmProviderConfig) :
    Except String GeminiChatSettings :=
  match config.apiKey with
  | none => .error "Gemini provider requires an API key"
  | some k =>
    if k = "" then .error "Gemini provider requires an API key"
    else .ok ⟨k, jsOrStr config.model "gemini-2.0-flash-thinking-exp-01-21",
              jsOrNum config.timeout 60000⟩

/-- The settings captured by `GeminiProvider.createEmbedder` when
construction succeeds. -/
structure GeminiEmbedderSettings where
  apiKey : String
  model : String
deriving DecidableEq, Repr

/-- `GeminiProvider.createEmbedder`: `if (!config.apiKey) throw`, then
capture `model = config.embeddingModel || "embedding-001"`. -/
def geminiCreateEmbedder (config : LlmProviderConfig) :
    Except String GeminiEmbedderSettings :=
  match config.apiKey with
  | none => .error "Gemini provider requires an API key"
  | some k =>
    if k = "" then .error "Gemini provider requires an API key"
    else .ok ⟨k, jsOrStr config.embeddingModel "embedding-001"⟩

/-- Template-literal interpolation of `error.message`
(JavaScript renders `undefined` as the text "undefined"). -/
def jsErrorMessageText (e : JsError) : String :=
  match e.message with
  | some m => m
  | none => "undefined"

/-- Gemini `embed`: on a backend success returns `{embedding}`, on a
caught error rethrows
`` new Error(`Failed to generate embeddings: ${error.message}`) ``. -/
def geminiEmbed (backendResult : Except JsError (List ℚ)) :
    Except String EmbedResult :=
  match backendResult with
  | .ok values => .ok ⟨values⟩
  | .error e => .error ("Failed to generate embeddings: " ++ jsErrorMessageText e)

/-! ## Provider registry (`llmProviderFactory.ts`) -/

/-- The two providers registered in the `providers` record. -/
inductive ProviderTag where
  | ollama
  | gemini
deriving DecidableEq, Repr

/-- The `providers` record, as an association list in declaration order. -/
def providerRegistry : List (String × ProviderTag) :=
  [("ollama", ProviderTag.ollama), ("gemini", ProviderTag.gemini)]

/-- `Object.keys(providers)`. -/
def registeredProviderNames : List String :=
  providerRegistry.map (fun p => p.1)

/-- The failure message of `getLlmProvider` for an unknown name. -/
def unknownProviderMessage (name : String) : String :=
  "LLM provider \x27" ++ name ++ "\x27 not found. Available providers: " ++
    String.intercalate ", " registeredProviderNames

/-- The property names every plain JavaScript object literal inherits
from `Object.prototype`; each holds a truthy value (a function, or the
prototype object itself for the `__proto__` accessor. -/
def objectPrototypeProps : List String :=
  ["constructor", "hasOwnProperty", "isPrototypeOf", "propertyIsEnumerable",
   "toLocaleString", "toString", "valueOf",
   "__defineGetter__", "__defineSetter__", "__lookupGetter__", "__lookupSetter__",
   "__proto__"]

/-- What the bracket access `providers[key]` can yield when it is
truthy: a registered provider, or a value inherited from
`Object.prototype` through the prototype chain of the object literal. -/
inductive JsProviderValue where
  | provider : ProviderTag → JsProviderValue
  | inheritedObject : String → JsProviderValue
deriving DecidableEq, Repr

/-- `getLlmProvider`: evaluate `providers[providerName.toLowerCase()]`
— an own property if registered, otherwise a truthy value inherited
from `Object.prototype` if the key names one — and throw the
enumerating error only when the access yields a falsy `undefined`. -/
def getLlmProvider (name : String) : Except String JsProviderValue :=
  match providerRegistry.lookup (jsToLowerCase name) with
  | some p => .ok (.provider p)
  | none =>
    if objectPrototypeProps.contains (jsToLowerCase name) then
      .ok (.inheritedObject (jsToLowerCase name))
    else
      .error (unknownProviderMessage name)

/-- A chat backend oracle that always fails with a fixed non-timeout
transport error. -/
def failingChatBackend (_req : α) : Except JsError String :=
  Except.error ⟨none, some "connection refused"⟩

/-- A chat backend oracle that always fails with a timeout error. -/
def timingOutChatBackend (_req : α) : Except JsError String :=
  Except.error ⟨none, some "Gemini API call timed out"⟩

/-! ## Helper lemmas about the Backoff Executor -/

/-- For a permanently failing operation, the loop started with
`remaining + 1` iterations left rethrows the error of the last invocation
and invokes the operation once per allowed iteration. -/
theorem withBackoffGo_allFail (ε α : Type) (es : Nat → ε) (maxDelay : Nat) :
    ∀ remaining attempt delay,
      (withBackoffGo (alwaysFail es : Nat → Except ε α) maxDelay (remaining + 1)
          attempt delay).outcome = BackoffOutcome.failure (es (attempt + remaining)) ∧
      (withBackoffGo (alwaysFail es : Nat → Except ε α) maxDelay (remaining + 1)
          attempt delay).calls = remaining + 1 := by
  intro remaining
  induction remaining with
  | zero =>
    intro attempt delay
    exact ⟨rfl, rfl⟩
  | succ r ih =>
    intro attempt delay
    have h := ih (attempt + 1) (min (delay * 2) maxDelay)
    have e : attempt + 1 + r = attempt + (r + 1) := by omega
    refine ⟨?_, ?_⟩
    · show (withBackoffGo (alwaysFail es : Nat → Except ε α) maxDelay (r + 1)
          (attempt + 1) (min (delay * 2) maxDelay)).outcome = _
      rw [h.1, e]
    · show (withBackoffGo (alwaysFail es : Nat → Except ε α) maxDelay (r + 1)
          (attempt + 1) (min (delay * 2) maxDelay)).calls + 1 = _
      rw [h.2]

/-- For a permanently failing operation, the loop never returns a
success, whatever the iteration budget. -/
theorem withBackoffGo_allFail_not_success (ε α : Type) (es : Nat → ε) (maxDelay : Nat) :
    ∀ remaining attempt delay (a : α),
      (withBackoffGo (alwaysFail es : Nat → Except ε α) maxDelay remaining
          attempt delay).outcome ≠ BackoffOutcome.success a := by
  intro remaining
  induction remaining with
  | zero =>
    intro attempt delay a h
    exact BackoffOutcome.noConfusion h
  | succ r ih =>
    intro attempt delay a
    cases r with
    | zero =>
      intro h
      exact BackoffOutcome.noConfusion h
    | succ r' =>
      exact ih (attempt + 1) (min (delay * 2) maxDelay) a

/-- With at least one iteration allowed, the loop never reaches the
trailing `throw new Error("Should not reach here")`, whatever the
operation does. -/
theorem withBackoffGo_no_unreachable (ε α : Type) (fn : Nat → Except ε α) (maxDelay : Nat) :
    ∀ remaining attempt delay,
      (withBackoffGo fn maxDelay (remaining + 1) attempt delay).outcome
        ≠ BackoffOutcome.shouldNotReachHere := by
  intro remaining
  induction remaining with
  | zero =>
    intro attempt delay
    rw [withBackoffGo.eq_2]
    cases h : fn attempt <;> exact fun hc => BackoffOutcome.noConfusion hc
  | succ r ih =>
    intro attempt delay
    rw [withBackoffGo.eq_2]
    cases h : fn attempt with
    | ok a => exact fun hc => BackoffOutcome.noConfusion hc
    | error e => exact ih (attempt + 1) (min (delay * 2) maxDelay)

/-! ## Claim theorems -/

/-- Claim C1: the claim says the base delay before retry attempt k (k ≥ 2)
equals min(startingDelay * 2^(k-2), maxDelay), i.e. startingDelay before
attempt 2.  Evaluating the embedded `withBackoff` at startingDelay = 1000,
maxDelay = 5000, numOfAttempts = 3 with a permanently failing operation:
the base delays actually computed before attempts 2 and 3 are 2000 and
4000 — the loop doubles the delay variable before the first wait — while
the claimed formula gives 1000 and 2000. -/
theorem withBackoff_base_delay_doubled_before_first_retry :
    (withBackoff 3 1000 5000 (alwaysFail (fun k => k) : Nat → Except Nat Unit)).baseDelays
      = [2000, 4000] ∧
    [min (1000 * 2 ^ (2 - 2)) 5000, min (1000 * 2 ^ (3 - 2)) 5000] = [1000, 2000] ∧
    (withBackoff 3 1000 5000 (alwaysFail (fun k => k) : Nat → Except Nat Unit)).baseDelays
      ≠ [min (1000 * 2 ^ (2 - 2)) 5000, min (1000 * 2 ^ (3 - 2)) 5000] := by
  decide

/-- Claim C3: for every configured number of attempts n ≥ 1, an operation
that fails on every invocation is invoked exactly n times, and
`withBackoff` then fails by rethrowing the error of the last (n-th)
invocation. -/
theorem withBackoff_allFail_invokes_exactly_n (ε α : Type) (es : Nat → ε)
    (n startingDelay maxDelay : Nat) (h : 1 ≤ n) :
    (withBackoff n startingDelay maxDelay (alwaysFail es : Nat → Except ε α)).calls = n ∧
    (withBackoff n startingDelay maxDelay (alwaysFail es : Nat → Except ε α)).outcome
      = BackoffOutcome.failure (es (n - 1)) := by
  obtain ⟨r, rfl⟩ : ∃ r, n = r + 1 := ⟨n - 1, (Nat.succ_pred_eq_of_pos h).symm⟩
  have hh := withBackoffGo_allFail ε α es maxDelay r 0 startingDelay
  refine ⟨hh.2, ?_⟩
  rw [withBackoff, hh.1]
  norm_num

/-- Witness for C3 at n = 3: the permanently failing operation with
errors k ↦ k is invoked 3 times and the error of the third invocation
(index 2) is rethrown. -/
theorem withBackoff_allFail_invokes_exactly_n_witness :
    (withBackoff 3 1000 5000 (alwaysFail (fun k => k) : Nat → Except Nat Unit)).calls = 3 ∧
    (withBackoff 3 1000 5000 (alwaysFail (fun k => k) : Nat → Except Nat Unit)).outcome
      = BackoffOutcome.failure 2 :=
  withBackoff_allFail_invokes_exactly_n Nat Unit (fun k => k) 3 1000 5000 (by decide)

/-- Claim C4: an embed call whose backend fails on every attempt never
returns a successful EmbedResult (in particular no empty embedding can be
returned); with at least one configured attempt it propagates the failure
of the last attempt after exhausting all retries.  Likewise the Gemini
`embed` rethrows a failure on a failing backend call. -/
theorem embed_allFail_propagates_failure (s : OllamaBackoffSettings)
    (es : Nat → JsError) (e : JsError) (h : 1 ≤ s.numOfAttempts) :
    (∀ r : EmbedResult, ollamaEmbed s (alwaysFail es) ≠ BackoffOutcome.success r) ∧
    ollamaEmbed s (alwaysFail es)
      = BackoffOutcome.failure (es (s.numOfAttempts - 1)) ∧
    geminiEmbed (Except.error e)
      = Except.error ("Failed to generate embeddings: " ++ jsErrorMessageText e) := by
  obtain ⟨r, hr⟩ : ∃ r, s.numOfAttempts = r + 1 :=
    ⟨s.numOfAttempts - 1, (Nat.succ_pred_eq_of_pos h).symm⟩
  have hh := withBackoffGo_allFail JsError (List ℚ) es s.maxDelay r 0 s.startingDelay
  have houtcome : (ollamaEmbedText s (alwaysFail es)).outcome
      = BackoffOutcome.failure (es (s.numOfAttempts - 1)) := by
    rw [ollamaEmbedText, withBackoff, hr, hh.1]
    norm_num
  refine ⟨?_, ?_, rfl⟩
  · intro r'
    rw [ollamaEmbed, houtcome]
    exact fun hc => BackoffOutcome.noConfusion hc
  · rw [ollamaEmbed, houtcome]

/-- Witness for C4 at numOfAttempts = 3: the always-failing embed
backend yields the propagated failure of attempt index 2, never a
success. -/
theorem embed_allFail_propagates_failure_witness :
    (∀ r : EmbedResult,
        ollamaEmbed ⟨3, 5000, 1000⟩ (alwaysFail (fun _ => ⟨none, some "boom"⟩))
          ≠ BackoffOutcome.success r) ∧
    ollamaEmbed ⟨3, 5000, 1000⟩ (alwaysFail (fun _ => ⟨none, some "boom"⟩))
      = BackoffOutcome.failure ⟨none, some "boom"⟩ ∧
    geminiEmbed (Except.error ⟨none, some "boom"⟩)
      = Except.error ("Failed to generate embeddings: "
          ++ jsErrorMessageText ⟨none, some "boom"⟩) :=
  embed_allFail_propagates_failure ⟨3, 5000, 1000⟩ (fun _ => ⟨none, some "boom"⟩)
    ⟨none, some "boom"⟩ (by decide)

/-- Claim C10: in `OllamaProvider.createEmbedder`, a configured 0 for
numOfAttempts, maxDelay or startingDelay is silently replaced by the
defaults 3, 5000 and 1000 (falsy-value defaulting); consequently zero
attempts and a zero starting delay are unconfigurable, the resolved
numOfAttempts is always ≥ 1, and the trailing
"Should not reach here" branch of `withBackoff` is never hit. -/
theorem ollama_embedder_falsy_zero_defaults (config : LlmProviderConfig)
    (backend : Nat → Except JsError (List ℚ)) :
    (resolveOllamaBackoff { config with numOfAttempts := some 0 }).numOfAttempts = 3 ∧
    (resolveOllamaBackoff { config with maxDelay := some 0 }).maxDelay = 5000 ∧
    (resolveOllamaBackoff { config with startingDelay := some 0 }).startingDelay = 1000 ∧
    (resolveOllamaBackoff config).numOfAttempts ≠ 0 ∧
    (resolveOllamaBackoff config).startingDelay ≠ 0 ∧
    1 ≤ (resolveOllamaBackoff config).numOfAttempts ∧
    (ollamaEmbedText (resolveOllamaBackoff config) backend).outcome
      ≠ BackoffOutcome.shouldNotReachHere := by
  have hnum : 1 ≤ (resolveOllamaBackoff config).numOfAttempts := by
    rw [resolveOllamaBackoff]
    rcases config.numOfAttempts with _ | (_ | n) <;> simp [jsOrNum]
  have hstart : (resolveOllamaBackoff config).startingDelay ≠ 0 := by
    rw [resolveOllamaBackoff]
    rcases config.startingDelay with _ | (_ | n) <;> simp [jsOrNum]
  refine ⟨rfl, rfl, rfl, by omega, hstart, hnum, ?_⟩
  obtain ⟨r, hr⟩ : ∃ r, (resolveOllamaBackoff config).numOfAttempts = r + 1 :=
    ⟨_ - 1, (Nat.succ_pred_eq_of_pos hnum).symm⟩
  rw [ollamaEmbedText, withBackoff, hr]
  exact withBackoffGo_no_unreachable JsError (List ℚ) backend
    (resolveOllamaBackoff config).maxDelay r 0 (resolveOllamaBackoff config).startingDelay

/-- Claim C2: for every message list, a chat call whose backend call
fails (timeout or any other transport error) returns a well-formed
ChatResult with role "assistant" and non-empty apology content — one of
the two apology strings — and never propagates the error; this holds for
the Gemini adapter and the Ollama adapters alike. -/
theorem chat_failure_returns_apology (messages : List Message) (e : JsError)
    (gb : List GeminiMessage → Except JsError String)
    (ob : String → Except JsError String)
    (hg : ∀ req, gb req = Except.error e)
    (ho : ∀ req, ob req = Except.error e) :
    (geminiAnswerQuestionAwaited messages gb).role = "assistant" ∧
    (geminiAnswerQuestionAwaited messages gb).content ≠ "" ∧
    ((geminiAnswerQuestionAwaited messages gb).content = timeoutApology ∨
      (geminiAnswerQuestionAwaited messages gb).content = technicalDifficultiesApology) ∧
    (ollamaAnswerQuestionAwaited messages ob).role = "assistant" ∧
    (ollamaAnswerQuestionAwaited messages ob).content ≠ "" ∧
    ((ollamaAnswerQuestionAwaited messages ob).content = timeoutApology ∨
      (ollamaAnswerQuestionAwaited messages ob).content = technicalDifficultiesApology) := by
  have h1 : geminiAnswerQuestionAwaited messages gb
      = (if geminiIsTimeoutError e then (⟨"assistant", timeoutApology⟩ : ChatResult)
         else ⟨"assistant", technicalDifficultiesApology⟩) := by
    rw [geminiAnswerQuestionAwaited, hg]
  have h2 : ollamaAnswerQuestionAwaited messages ob
      = (if ollamaIsTimeoutError e then (⟨"assistant", timeoutApology⟩ : ChatResult)
         else ⟨"assistant", technicalDifficultiesApology⟩) := by
    rw [ollamaAnswerQuestionAwaited, ho]
  rw [h1, h2]
  cases geminiIsTimeoutError e <;> cases ollamaIsTimeoutError e <;> decide

/-- Witness for C2: the always-failing backend with a non-timeout
transport error yields the technical-difficulties apology from both
adapters. -/
theorem chat_failure_returns_apology_witness :
    (geminiAnswerQuestionAwaited [] failingChatBackend).role = "assistant" ∧
    (geminiAnswerQuestionAwaited [] failingChatBackend).content ≠ "" ∧
    ((geminiAnswerQuestionAwaited [] failingChatBackend).content = timeoutApology ∨
      (geminiAnswerQuestionAwaited [] failingChatBackend).content
        = technicalDifficultiesApology) ∧
    (ollamaAnswerQuestionAwaited [] failingChatBackend).role = "assistant" ∧
    (ollamaAnswerQuestionAwaited [] failingChatBackend).content ≠ "" ∧
    ((ollamaAnswerQuestionAwaited [] failingChatBackend).content = timeoutApology ∨
      (ollamaAnswerQuestionAwaited [] failingChatBackend).content
        = technicalDifficultiesApology) :=
  chat_failure_returns_apology [] ⟨none, some "connection refused"⟩
    failingChatBackend failingChatBackend (fun _ => rfl) (fun _ => rfl)

/-- Claim C7 counterexample: two failing Gemini chat calls on the same
(empty) message list, one a timeout and one another transport error,
return different ChatResults — the timeout/non-timeout distinction is
visible in the returned value, not only in the logged diagnostic. -/
theorem chat_failure_kind_visible_in_returned_result :
    geminiAnswerQuestionAwaited [] timingOutChatBackend
      ≠ geminiAnswerQuestionAwaited [] failingChatBackend := by
  decide

/-- Claim C7 (amended): two failing chat calls on the same message list
return the same ChatResult whenever their failures have the same timeout
classification, and every failing call returns the role "assistant"
shape; the timeout/non-timeout distinction itself, however, does appear
in the returned content (two different apology texts). -/
theorem chat_failure_result_determined_by_timeout_kind (messages : List Message)
    (e₁ e₂ : JsError)
    (hg : geminiIsTimeoutError e₁ = geminiIsTimeoutError e₂)
    (ho : ollamaIsTimeoutError e₁ = ollamaIsTimeoutError e₂) :
    geminiAnswerQuestionAwaited messages (fun _ => Except.error e₁)
      = geminiAnswerQuestionAwaited messages (fun _ => Except.error e₂) ∧
    ollamaAnswerQuestionAwaited messages (fun _ => Except.error e₁)
      = ollamaAnswerQuestionAwaited messages (fun _ => Except.error e₂) ∧
    (geminiAnswerQuestionAwaited messages (fun _ => Except.error e₁)).role
      = "assistant" ∧
    (ollamaAnswerQuestionAwaited messages (fun _ => Except.error e₁)).role
      = "assistant" ∧
    timeoutApology ≠ technicalDifficultiesApology := by
  have h1 : ∀ e : JsError,
      geminiAnswerQuestionAwaited messages (fun _ => Except.error e)
        = (if geminiIsTimeoutError e then (⟨"assistant", timeoutApology⟩ : ChatResult)
           else ⟨"assistant", technicalDifficultiesApology⟩) := fun e => rfl
  have h2 : ∀ e : JsError,
      ollamaAnswerQuestionAwaited messages (fun _ => Except.error e)
        = (if ollamaIsTimeoutError e then (⟨"assistant", timeoutApology⟩ : ChatResult)
           else ⟨"assistant", technicalDifficultiesApology⟩) := fun e => rfl
  refine ⟨?_, ?_, ?_, ?_, by decide⟩
  · rw [h1, h1, hg]
  · rw [h2, h2, ho]
  · rw [h1]
    cases geminiIsTimeoutError e₁ <;> rfl
  · rw [h2]
    cases ollamaIsTimeoutError e₁ <;> rfl

/-- Witness for the amended C7: two distinct non-timeout transport
errors produce identical results from both adapters. -/
theorem chat_failure_result_determined_by_timeout_kind_witness :
    geminiAnswerQuestionAwaited [] (fun _ => Except.error ⟨none, some "connection refused"⟩)
      = geminiAnswerQuestionAwaited [] (fun _ => Except.error ⟨some "ENOTFOUND", none⟩) ∧
    ollamaAnswerQuestionAwaited [] (fun _ => Except.error ⟨none, some "connection refused"⟩)
      = ollamaAnswerQuestionAwaited [] (fun _ => Except.error ⟨some "ENOTFOUND", none⟩) ∧
    (geminiAnswerQuestionAwaited []
        (fun _ => Except.error ⟨none, some "connection refused"⟩)).role = "assistant" ∧
    (ollamaAnswerQuestionAwaited []
        (fun _ => Except.error ⟨none, some "connection refused"⟩)).role = "assistant" ∧
    timeoutApology ≠ technicalDifficultiesApology :=
  chat_failure_result_determined_by_timeout_kind []
    ⟨none, some "connection refused"⟩ ⟨some "ENOTFOUND", none⟩ (by decide) (by decide)

/-! ## Helper lemmas about the Gemini message normalization -/

/-- Filtering the Gemini-mapped list for role "system" is mapping the
system-filtered original list. -/
theorem filter_system_map (messages : List Message) :
    (messages.map toGeminiMessage).filter (fun m => m.role == "system")
      = (messages.filter (fun m => m.role == Role.system)).map toGeminiMessage := by
  induction messages with
  | nil => rfl
  | cons m l ih =>
    cases hm : m.role <;> simp [toGeminiMessage, hm, ih]

/-- Filtering the Gemini-mapped list for non-"system" roles is mapping
the non-system-filtered original list. -/
theorem filter_nonsystem_map (messages : List Message) :
    (messages.map toGeminiMessage).filter (fun m => !(m.role == "system"))
      = (messages.filter (fun m => !(m.role == Role.system))).map toGeminiMessage := by
  induction messages with
  | nil => rfl
  | cons m l ih =>
    cases hm : m.role <;> simp [toGeminiMessage, hm, ih]

/-- The first "user"-role index of the Gemini-mapped list is the first
user-role index of the original list. -/
theorem findIndex_user_map (messages : List Message) :
    findIndex (fun m => m.role == "user") (messages.map toGeminiMessage)
      = findIndex (fun m => m.role == Role.user) messages := by
  induction messages with
  | nil => rfl
  | cons m l ih =>
    cases hm : m.role <;> simp [findIndex, toGeminiMessage, hm, ih]

/-- The texts of the Gemini-mapped messages are the contents of the
original messages. -/
theorem map_text_toGemini (l : List Message) :
    (l.map toGeminiMessage).map (fun m => m.text) = l.map (fun m => m.content) := by
  induction l with
  | nil => rfl
  | cons m l ih => simp [toGeminiMessage, ih]

/-- The embedded conversion block agrees with the spec-side description
of the normalization on every message list. -/
theorem geminiNormalize_eq_spec (messages : List Message) :
    geminiNormalizeMessages messages = geminiNormalizeSpec messages := by
  rw [geminiNormalizeMessages, geminiNormalizeSpec]
  simp only [filter_system_map, filter_nonsystem_map, findIndex_user_map,
    map_text_toGemini, List.length_map]
  rcases hs : messages.filter (fun m => m.role == Role.system) with _ | ⟨s0, stl⟩ <;>
    rcases hr : messages.filter (fun m => !(m.role == Role.system)) with _ | ⟨r0, rtl⟩
  · simp [hs, hr]
  · simp [hs, hr]
  · simp [hs, hr, findIndex]
  · rw [hs, hr]
    rw [if_pos (by simp)]
    rcases hfi : findIndex (fun m => m.role == Role.user) (r0 :: rtl) with _ | i <;>
      simp [hfi]

/-- A predicate false on every element locates no index. -/
theorem findIndex_eq_none (p : α → Bool) (l : List α) (h : ∀ a ∈ l, p a = false) :
    findIndex p l = none := by
  induction l with
  | nil => rfl
  | cons a l ih =>
    rw [findIndex, h a (by simp)]
    simp [ih (fun b hb => h b (by simp [hb]))]

/-- The non-system filter is idempotent. -/
theorem filter_nonsystem_idem (messages : List Message) :
    (messages.filter (fun m => !(m.role == Role.system))).filter
        (fun m => !(m.role == Role.system))
      = messages.filter (fun m => !(m.role == Role.system)) := by
  induction messages with
  | nil => rfl
  | cons m l ih => cases hm : m.role <;> simp [hm, ih]

/-- No system message survives the non-system filter. -/
theorem filter_system_of_nonsystem_nil (messages : List Message) :
    (messages.filter (fun m => !(m.role == Role.system))).filter
        (fun m => m.role == Role.system) = [] := by
  induction messages with
  | nil => rfl
  | cons m l ih => cases hm : m.role <;> simp [hm, ih]

/-- Claim C5: normalizing [{system, "A"}, {user, "B"}] for the Gemini
dialect yields a single user message with content
"[System Instructions: A]\n\nB"; in general the conversion block agrees
with the spec-side description (all system contents in original order,
joined by a blank line, wrapped as [System Instructions: <text>] plus a
blank line, prepended to the first user message of the remaining
sequence). -/
theorem gemini_system_merge_into_first_user (messages : List Message) :
    geminiNormalizeMessages [⟨Role.system, "A"⟩, ⟨Role.user, "B"⟩]
      = [⟨"user", "[System Instructions: A]\n\nB"⟩] ∧
    geminiNormalizeMessages messages = geminiNormalizeSpec messages :=
  ⟨by decide, geminiNormalize_eq_spec messages⟩

/-- Claim C6: a message list with at least one system message and no
user message normalizes, without failing, to the plain Gemini mapping of
its non-system messages — the system content is silently dropped: the
output equals the normalization of the conversation with every system
message deleted. -/
theorem gemini_system_dropped_without_user (messages : List Message)
    (hnouser : ∀ m ∈ messages, m.role ≠ Role.user)
    (hsys : ∃ m ∈ messages, m.role = Role.system) :
    geminiNormalizeMessages messages
      = (messages.filter (fun m => !(m.role == Role.system))).map toGeminiMessage ∧
    geminiNormalizeMessages messages
      = geminiNormalizeMessages
          (messages.filter (fun m => !(m.role == Role.system))) := by
  have hfi : findIndex (fun m => m.role == Role.user)
      (messages.filter (fun m => !(m.role == Role.system))) = none := by
    apply findIndex_eq_none
    intro a ha
    have hne := hnouser a (List.mem_of_mem_filter ha)
    simp [hne]
  have h1 : geminiNormalizeMessages messages
      = (messages.filter (fun m => !(m.role == Role.system))).map toGeminiMessage := by
    rw [geminiNormalize_eq_spec, geminiNormalizeSpec]
    rcases hs : messages.filter (fun m => m.role == Role.system) with _ | ⟨s0, stl⟩ <;>
      simp [hs, hfi]
  refine ⟨h1, ?_⟩
  rw [h1, geminiNormalize_eq_spec, geminiNormalizeSpec]
  simp [filter_system_of_nonsystem_nil, filter_nonsystem_idem]

/-- Witness for C6: a system message followed by an assistant message
(no user message) normalizes to just the mapped assistant message. -/
theorem gemini_system_dropped_without_user_witness :
    geminiNormalizeMessages [⟨Role.system, "A"⟩, ⟨Role.assistant, "C"⟩]
      = ([(⟨Role.system, "A"⟩ : Message), ⟨Role.assistant, "C"⟩].filter
          (fun m => !(m.role == Role.system))).map toGeminiMessage ∧
    geminiNormalizeMessages [⟨Role.system, "A"⟩, ⟨Role.assistant, "C"⟩]
      = geminiNormalizeMessages
          ([(⟨Role.system, "A"⟩ : Message), ⟨Role.assistant, "C"⟩].filter
            (fun m => !(m.role == Role.system))) :=
  gemini_system_dropped_without_user [⟨Role.system, "A"⟩, ⟨Role.assistant, "C"⟩]
    (by decide) (by decide)

/-! ## Provider registry and Gemini construction claims -/

/-- The unknown-provider failure message decomposes into a fixed text
around the offending name, ending with the comma-joined registered
names. -/
theorem unknownProviderMessage_data (name : String) :
    (unknownProviderMessage name).data
      = "LLM provider \x27".data ++ name.data
          ++ "\x27 not found. Available providers: ollama, gemini".data := by
  rw [unknownProviderMessage]
  rw [show String.intercalate ", " registeredProviderNames = "ollama, gemini" from rfl]
  simp [String.data_append, List.append_assoc]

theorem getLlmProvider_unknown_lists_all (name : String)
    (h : providerRegistry.lookup (jsToLowerCase name) = none)
    (hp : objectPrototypeProps.contains (jsToLowerCase name) = false) :
    getLlmProvider name = Except.error (unknownProviderMessage name) ∧
    ∀ r ∈ registeredProviderNames, r.data <:+: (unknownProviderMessage name).data := by
  have hp2 : jsToLowerCase name ∉ objectPrototypeProps := by simpa using hp
  refine ⟨by rw [getLlmProvider, h]; simp [hp2], ?_⟩
  intro r hr
  rw [show registeredProviderNames = ["ollama", "gemini"] from rfl] at hr
  rw [unknownProviderMessage_data]
  simp only [List.mem_cons, List.not_mem_nil, or_false] at hr
  rcases hr with rfl | rfl
  · refine ⟨"LLM provider \x27".data ++ name.data
        ++ "\x27 not found. Available providers: ".data, ", gemini".data, ?_⟩
    simp [List.append_assoc]
  · refine ⟨"LLM provider \x27".data ++ name.data
        ++ "\x27 not found. Available providers: ollama, ".data, [], ?_⟩
    simp [List.append_assoc]

set_option maxRecDepth 8192 in
/-- Claim C8: the claim says every provider name not registered in the
registry (after case folding) makes `getLlmProvider` fail with an
unknown-provider error.  Evaluating the embedded lookup at the
unregistered names "constructor" and "__proto__": the bracket access
`providers[name.toLowerCase()]` finds a truthy value inherited from
`Object.prototype` through the prototype chain, the `if (!provider)`
guard is skipped, and the call returns that inherited value without
throwing — while a name that misses both the registry and the prototype
properties, such as "unknown-provider", does fail with the error message
listing every registered provider name. -/
theorem getLlmProvider_prototype_chain_skips_throw :
    providerRegistry.lookup (jsToLowerCase "constructor") = none ∧
    providerRegistry.lookup (jsToLowerCase "__proto__") = none ∧
    getLlmProvider "constructor"
      = Except.ok (JsProviderValue.inheritedObject "constructor") ∧
    getLlmProvider "__proto__"
      = Except.ok (JsProviderValue.inheritedObject "__proto__") ∧
    getLlmProvider "unknown-provider"
      = Except.error (unknownProviderMessage "unknown-provider") ∧
    "ollama".data <:+: (unknownProviderMessage "unknown-provider").data ∧
    "gemini".data <:+: (unknownProviderMessage "unknown-provider").data :=
  ⟨by decide, by decide, rfl, rfl, rfl, by decide, by decide⟩

/-- Claim C9: the Gemini adapter requires an API key, and when the
configured credential is absent (or empty, which JavaScript treats as
falsy) both `createChatLlm` and `createEmbedder` fail at construction
with the configuration error — the construction result is the error, not
a capability that could defer the failure to the first call. -/
theorem gemini_construction_fails_without_api_key (config : LlmProviderConfig)
    (h : config.apiKey = none ∨ config.apiKey = some "") :
    geminiRequiresApiKey = true ∧
    geminiCreateChatLlm config = Except.error "Gemini provider requires an API key" ∧
    geminiCreateEmbedder config = Except.error "Gemini provider requires an API key" := by
  rcases h with h | h <;>
    exact ⟨rfl, by simp [geminiCreateChatLlm, h], by simp [geminiCreateEmbedder, h]⟩

/-- Witness for C9: the empty configuration (no API key) makes both
Gemini constructions fail. -/
theorem gemini_construction_fails_without_api_key_witness :
    geminiRequiresApiKey = true ∧
    geminiCreateChatLlm {} = Except.error "Gemini provider requires an API key" ∧
    geminiCreateEmbedder {} = Except.error "Gemini provider requires an API key" :=
  gemini_construction_fails_without_api_key {} (Or.inl rfl)
